import Mathlib

/-!
Verification of the reservation-scheduling and payment-allocation core of the
pickleball-rt2 repository. The definitions below are a shallow embedding of
the TypeScript source under `src/backend/src` (controllers `adminController.ts`
and the payment controller, models `CourtReservation.ts`, `PaymentLog.ts`) and
the shared constants in `types/interfaces.ts`.

Modelling conventions:
* A time slot label `"HH:00"` is represented by its hour as a `Nat`
  (5, 6, …, 22). MongoDB compares the zero-padded labels as strings; on this
  fixed grid lexicographic string order coincides with numeric hour order, so
  the `$lte/$lt/$gte/$gt` string comparisons of the source are embedded as the
  corresponding `Nat` comparisons.
* JavaScript numbers used for money are embedded as `ℚ` (exact rational
  arithmetic); coin balances, which the code only ever adds and subtracts as
  integers, are embedded as `Int`.
* Mongo documents become Lean structures; a field that may be absent from a
  stored document is an `Option`. A Mongo comparison operator applied to an
  absent field matches nothing, which is what the `oLE`/`oLT`/`oGE`/`oGT`
  helpers implement.
* Fallible persistence: every business-rule check of `createReservation`
  happens before the first write; the one mid-sequence write that the
  controller performs after the booking is already saved is the
  `CoinTransaction.save()` call, whose success is modelled by the explicit
  `txnSaveOk` flag (`false` = the storage layer throws there, caught by the
  controller's catch-all).
-/

deriving instance DecidableEq for Except

namespace PickleballRT

/-- The fixed grid of bookable hourly marks, `TIME_SLOTS` of
`types/interfaces.ts` (`"05:00"` … `"22:00"`), each label represented by its
hour. -/
def TIME_SLOTS : List Nat :=
  [5, 6, 7, 8, 9, 10, 11, 12, 13, 14, 15, 16, 17, 18, 19, 20, 21, 22]

/-- `TIME_SLOTS.includes(label)`. -/
def validSlot (h : Nat) : Bool := TIME_SLOTS.contains h

/-- `COIN_COSTS.COURT_RESERVATION` from `types/interfaces.ts`. -/
def COURT_RESERVATION_COST : Int := 10

/-- `COURT_FEES.HOMEOWNER_RATE` from `types/interfaces.ts`. -/
def HOMEOWNER_RATE : ℚ := 25

/-- `COURT_FEES.NON_HOMEOWNER_RATE` from `types/interfaces.ts`. -/
def NON_HOMEOWNER_RATE : ℚ := 50

/-- `COURT_FEES.MINIMUM_TOTAL` from `types/interfaces.ts`. -/
def MINIMUM_TOTAL : ℚ := 100

/-- `generateTimeSlotsBetween(startTime, endTime)` of `adminController.ts`:
the hours `startHour, startHour+1, …, endHour-1`. -/
def generateTimeSlotsBetween (startHour endHour : Nat) : List Nat :=
  (List.range (endHour - startHour)).map (fun k => startHour + k)

/-- `calculateDuration(startTime, endTime)` of `adminController.ts`
(only ever called after the controller has checked `endHour > startHour`). -/
def calculateDuration (startHour endHour : Nat) : Nat := endHour - startHour

/-- Mongo `{field: {$lte: v}}` on an optional field: absent matches nothing. -/
def oLE (x : Option Nat) (v : Nat) : Bool :=
  match x with | some a => a ≤ v | none => false

/-- Mongo `{field: {$lt: v}}` on an optional field. -/
def oLT (x : Option Nat) (v : Nat) : Bool :=
  match x with | some a => a < v | none => false

/-- Mongo `{field: {$gte: v}}` on an optional field. -/
def oGE (x : Option Nat) (v : Nat) : Bool :=
  match x with | some a => v ≤ a | none => false

/-- Mongo `{field: {$gt: v}}` on an optional field. -/
def oGT (x : Option Nat) (v : Nat) : Bool :=
  match x with | some a => v < a | none => false

/-- Reservation status enum of `CourtReservation.ts`. -/
inductive RStatus | pending | confirmed | cancelled | completed
deriving DecidableEq, Repr

/-- Payment status enum of `CourtReservation.ts`. -/
inductive PayStatus | pending | paid
deriving DecidableEq, Repr

/-- A stored `CourtReservation` document. Legacy documents may carry only
`timeSlot` and lack `startTime`/`endTime`; documents written by the current
controller always carry `startTime`. -/
structure ResDoc where
  id : Nat
  userId : Nat
  date : Nat
  startTime : Option Nat
  endTime : Option Nat
  timeSlot : Option Nat
  duration : Option Nat
  players : List Nat
  status : RStatus
  paymentStatus : PayStatus
deriving DecidableEq, Repr

/-- The three-case time-range overlap test of `createReservation`
(`adminController.ts`) for a candidate range `[start, endT)` against an
existing document's range fields: starts-inside `∨` ends-inside `∨` contains. -/
def threeCaseOverlap (s e : Option Nat) (start endT : Nat) : Bool :=
  (oLE s start && oGT e start) ||
  (oLT s endT && oGE e endT) ||
  (oGE s start && oLE e endT)

/-- The `$or` filter of the controller's range-conflict query in
`createReservation`: the three range cases plus the legacy clause
`timeSlot ∈ generateTimeSlotsBetween(start, endT)`. -/
def controllerRangeMatch (d : ResDoc) (start endT : Nat) : Bool :=
  threeCaseOverlap d.startTime d.endTime start endT ||
  (match d.timeSlot with
   | some t => (generateTimeSlotsBetween start endT).contains t
   | none => false)

/-- The controller's range-conflict check: any stored reservation on the same
date, not cancelled, matching `controllerRangeMatch`. -/
def hasControllerRangeConflict (docs : List ResDoc) (date start endT : Nat) : Bool :=
  docs.any (fun d =>
    d.date = date && d.status ≠ RStatus.cancelled && controllerRangeMatch d start endT)

/-- The controller's legacy single-slot conflict query in `createReservation`
(the `else` branch, no `endTime` in the request): `{timeSlot: startT}` or
`{startTime ≤ startT ∧ endTime > startT}`. -/
def controllerLegacyMatch (d : ResDoc) (startT : Nat) : Bool :=
  d.timeSlot = some startT || (oLE d.startTime startT && oGT d.endTime startT)

/-- The controller's legacy single-slot conflict check. -/
def hasControllerLegacyConflict (docs : List ResDoc) (date startT : Nat) : Bool :=
  docs.any (fun d =>
    d.date = date && d.status ≠ RStatus.cancelled && controllerLegacyMatch d startT)

/-- The `$or` filter of the `pre('save')` hook of `CourtReservation.ts` when
the document being saved has both `startTime` and `endTime`: the same three
range cases, but the legacy clause is `{timeSlot: {$exists: true, $ne: null}}`
— it matches every document that carries any `timeSlot` at all. -/
def preSaveRangeMatch (d : ResDoc) (start endT : Nat) : Bool :=
  threeCaseOverlap d.startTime d.endTime start endT || d.timeSlot.isSome

/-- The `$or` filter of the `pre('save')` hook when the document being saved
has only a `timeSlot`. -/
def preSaveLegacyMatch (d : ResDoc) (t : Nat) : Bool :=
  d.timeSlot = some t || (oLE d.startTime t && oGT d.endTime t)

/-- The whole `pre('save')` conflict query of `CourtReservation.ts` for a new
document `doc`: same date, not cancelled, `_id ≠ doc._id`, and the branch of
the `$or` filter chosen from `doc`'s fields. When the document has neither a
range nor a `timeSlot` the query has no `$or` and matches any same-date
non-cancelled document. -/
def preSaveConflict (docs : List ResDoc) (doc : ResDoc) : Bool :=
  docs.any (fun d =>
    d.date = doc.date && d.status ≠ RStatus.cancelled && d.id ≠ doc.id &&
    (match doc.startTime, doc.endTime with
     | some s, some e => preSaveRangeMatch d s e
     | _, _ =>
       match doc.timeSlot with
       | some t => preSaveLegacyMatch d t
       | none => true))

/-! ## Payment allocator (`calculatePlayerPayments` of `adminController.ts`) -/

/-- `homeownerStatus` of a `User` document. -/
inductive HStatus | homeowner | nonHomeowner
deriving DecidableEq, Repr

/-- A roster member as resolved from the `User` collection by
`User.find({_id: {$in: playerIds}})`: id plus `homeownerStatus`. -/
structure Player where
  id : Nat
  hStatus : HStatus
deriving DecidableEq, Repr

/-- One element of the `playerPayments` array built by
`calculatePlayerPayments`. -/
structure PlayerPayment where
  playerId : Nat
  hStatus : HStatus
  ratePerHour : ℚ
  totalAmount : ℚ
deriving DecidableEq, Repr

/-- The `summary` object built by `calculatePlayerPayments`. -/
structure PaymentSummary where
  duration : ℚ
  homeownerCount : Nat
  nonHomeownerCount : Nat
  homeownerRatePerHour : ℚ
  nonHomeownerRatePerHour : ℚ
  totalPerHour : ℚ
  grandTotal : ℚ
deriving DecidableEq, Repr

/-- Result of `calculatePlayerPayments`. -/
structure PaymentCalc where
  playerPayments : List PlayerPayment
  summary : PaymentSummary
deriving DecidableEq, Repr

/-- `homeownerCount` of `calculatePlayerPayments`: the roster members whose
`homeownerStatus` is `'homeowner'`. -/
def homeownerCount (players : List Player) : Nat :=
  (players.filter (fun p => p.hStatus = HStatus.homeowner)).length

/-- `nonHomeownerCount` of `calculatePlayerPayments`. -/
def nonHomeownerCount (players : List Player) : Nat :=
  (players.filter (fun p => p.hStatus = HStatus.nonHomeowner)).length

/-- `calculatedTotal` of `calculatePlayerPayments`: the raw (pre-floor)
per-hour total `homeownerCount * HOMEOWNER_RATE + nonHomeownerCount *
NON_HOMEOWNER_RATE`. -/
def calculatedTotal (players : List Player) : ℚ :=
  (homeownerCount players : ℚ) * HOMEOWNER_RATE +
  (nonHomeownerCount players : ℚ) * NON_HOMEOWNER_RATE

/-- `actualTotal` of `calculatePlayerPayments`:
`Math.max(calculatedTotal, COURT_FEES.MINIMUM_TOTAL)`. -/
def actualTotal (players : List Player) : ℚ :=
  max (calculatedTotal players) MINIMUM_TOTAL

/-- `additionalPerPlayer` of `calculatePlayerPayments`: when the floor binds,
the shortfall divided equally over the whole roster (zero otherwise — the
source only adds it inside the `if`). -/
def additionalPerPlayer (players : List Player) : ℚ :=
  if actualTotal players > calculatedTotal players then
    (actualTotal players - calculatedTotal players) /
      ((homeownerCount players : ℚ) + (nonHomeownerCount players : ℚ))
  else 0

/-- `homeownerRate` of `calculatePlayerPayments` (post-adjustment). -/
def homeownerRate (players : List Player) : ℚ :=
  HOMEOWNER_RATE + additionalPerPlayer players

/-- `nonHomeownerRate` of `calculatePlayerPayments` (post-adjustment). -/
def nonHomeownerRate (players : List Player) : ℚ :=
  NON_HOMEOWNER_RATE + additionalPerPlayer players

/-- The per-class effective rate chosen for one roster member. -/
def rateOf (players : List Player) (h : HStatus) : ℚ :=
  if h = HStatus.homeowner then homeownerRate players else nonHomeownerRate players

/-- `calculatePlayerPayments(playerIds, duration)` of `adminController.ts`,
taking the roster already resolved to `User` documents (the source's
`User.find` lookup). Per-hour totals from the two class counts, floored at
`COURT_FEES.MINIMUM_TOTAL`; any shortfall is divided equally per head and
added to both class rates for this computation only. -/
def calculatePlayerPayments (players : List Player) (duration : ℚ) : PaymentCalc :=
  { playerPayments := players.map (fun p =>
      { playerId := p.id
        hStatus := p.hStatus
        ratePerHour := rateOf players p.hStatus
        totalAmount := rateOf players p.hStatus * duration })
    summary :=
      { duration := duration
        homeownerCount := homeownerCount players
        nonHomeownerCount := nonHomeownerCount players
        homeownerRatePerHour := homeownerRate players
        nonHomeownerRatePerHour := nonHomeownerRate players
        totalPerHour := actualTotal players
        grandTotal := actualTotal players * duration } }

/-! ## Stored collections and system state -/

/-- `role` of a `User` document; only `superadmin` is distinguished by the
reservation logic. -/
inductive Role | member | admin | superadmin
deriving DecidableEq, Repr

/-- The fields of a `User` document read by the reservation and payment
controllers. -/
structure UserDoc where
  id : Nat
  role : Role
  isApproved : Bool
  membershipFeesPaid : Bool
  coinBalance : Int
  hStatus : HStatus
deriving DecidableEq, Repr

/-- `type` of a `CoinTransaction` document. -/
inductive TxnType | earned | spent | requested | granted
deriving DecidableEq, Repr

/-- A `CoinTransaction` document as written by the reservation controllers
(`status` is always `'approved'` there, so it is not modelled). -/
structure TxnDoc where
  userId : Nat
  type : TxnType
  amount : Int
  referenceId : Nat
deriving DecidableEq, Repr

/-- `status` of a `PaymentLog` document. -/
inductive PLStatus | pending | paid | rejected
deriving DecidableEq, Repr

/-- A `PaymentLog` document (fields used by `createPaymentLog` and by the
unsettled-payments check). -/
structure PLogDoc where
  userId : Nat
  reservationId : Option Nat
  amount : ℚ
  hStatus : HStatus
  ratePerHour : ℚ
  status : PLStatus
deriving DecidableEq, Repr

/-- The persisted state the modelled controllers read and write, plus the
current day (`today` at midnight in the source) and a fresh id for the next
saved reservation. -/
structure St where
  today : Nat
  users : List UserDoc
  reservations : List ResDoc
  transactions : List TxnDoc
  paymentLogs : List PLogDoc
  nextId : Nat
deriving DecidableEq, Repr

/-- `User.findById`. -/
def findUser (users : List UserDoc) (uid : Nat) : Option UserDoc :=
  users.find? (fun u => u.id = uid)

/-- `CourtReservation.findById`. -/
def findRes (docs : List ResDoc) (rid : Nat) : Option ResDoc :=
  docs.find? (fun d => d.id = rid)

/-- Mutate the coin balance of the user documents with the given id. -/
def updateBalance (users : List UserDoc) (uid : Nat) (δ : Int) : List UserDoc :=
  users.map (fun u => if u.id = uid then { u with coinBalance := u.coinBalance + δ } else u)

/-- Set the status of the reservation documents with the given id. -/
def setResStatus (docs : List ResDoc) (rid : Nat) (s : RStatus) : List ResDoc :=
  docs.map (fun d => if d.id = rid then { d with status := s } else d)

/-- `checkUnsettledPayments(userId)` of `adminController.ts`: does the user
have any `PaymentLog` with status `'pending'`? -/
def hasUnsettledPayments (logs : List PLogDoc) (uid : Nat) : Bool :=
  logs.any (fun p => p.userId = uid && p.status = PLStatus.pending)

/-- The mongoose document validators of `courtReservationSchema`
(`CourtReservation.ts`), run on every save: date not in the past,
`startTime`/`endTime` required and on the grid, `timeSlot` on the grid when
present, `duration` between 1 and 8 when present, at least one player. -/
def validDoc (today : Nat) (d : ResDoc) : Bool :=
  today ≤ d.date &&
  (match d.startTime with | some s => validSlot s | none => false) &&
  (match d.endTime with | some e => validSlot e | none => false) &&
  (match d.timeSlot with | some t => validSlot t | none => true) &&
  (match d.duration with | some x => decide (1 ≤ x) && decide (x ≤ 8) | none => true) &&
  decide (0 < d.players.length)

/-! ## `createReservation` (`adminController.ts`) -/

/-- The failure exits of `createReservation`. `validationFailed` is a mongoose
validator rejecting the save, `saveConflict` the `pre('save')` hook throwing,
`storageFailure` the `CoinTransaction.save()` call throwing (all three are
surfaced by the controller's catch-all / error response). -/
inductive CreateErr
  | invalidDate
  | missingStart
  | invalidRange
  | slotConflict
  | feesUnpaid
  | unsettledPayments
  | insufficientBalance
  | validationFailed
  | saveConflict
  | storageFailure
deriving DecidableEq, Repr

/-- The request body of `createReservation` (plus the authenticated user id). -/
structure CreateReq where
  userId : Nat
  date : Nat
  startTime : Option Nat
  endTime : Option Nat
  timeSlot : Option Nat
  players : List Nat
deriving DecidableEq, Repr

/-- What the pre-write phase of `createReservation` establishes: the acting
user document, the resolved start slot, the optional end slot, and the
duration in hours. -/
structure CreateInfo where
  user : UserDoc
  startT : Nat
  endT : Option Nat
  duration : Nat
deriving DecidableEq, Repr

/-- `totalCost = duration * COIN_COSTS.COURT_RESERVATION`. -/
def CreateInfo.cost (i : CreateInfo) : Int :=
  (i.duration : Int) * COURT_RESERVATION_COST

/-- The checks of `createReservation` that follow the time/conflict phase:
membership fees paid, no unsettled payments (skipped for superadmins),
sufficient coin balance (skipped for superadmins). A missing user document
falls into the `membershipFeesPaid` failure exactly as the source's
`!user?.membershipFeesPaid`. -/
def postTimeChecks (req : CreateReq) (st : St) (startT : Nat) (endT : Option Nat)
    (duration : Nat) : Except CreateErr CreateInfo :=
  match findUser st.users req.userId with
  | none => .error .feesUnpaid
  | some u =>
    if ¬ u.membershipFeesPaid then .error .feesUnpaid
    else if u.role ≠ Role.superadmin ∧ hasUnsettledPayments st.paymentLogs req.userId then
      .error .unsettledPayments
    else if u.role ≠ Role.superadmin ∧ u.coinBalance < (duration : Int) * COURT_RESERVATION_COST then
      .error .insufficientBalance
    else .ok ⟨u, startT, endT, duration⟩

/-- All checks of `createReservation` that precede the first write, in source
order: past date, start time present (`startTime || timeSlot`), slot-range
validity, conflict query (range or legacy branch), then `postTimeChecks`. -/
def createChecks (req : CreateReq) (st : St) : Except CreateErr CreateInfo :=
  if req.date < st.today then .error .invalidDate
  else
    match req.startTime.orElse (fun _ => req.timeSlot) with
    | none => .error .missingStart
    | some startT =>
      match req.endTime with
      | some endT =>
        if ¬ (validSlot startT && validSlot endT) then .error .invalidRange
        else if endT ≤ startT then .error .invalidRange
        else if hasControllerRangeConflict st.reservations req.date startT endT then
          .error .slotConflict
        else postTimeChecks req st startT (some endT) (calculateDuration startT endT)
      | none =>
        if ¬ validSlot startT then .error .invalidRange
        else if hasControllerLegacyConflict st.reservations req.date startT then
          .error .slotConflict
        else postTimeChecks req st startT none 1

/-- The `new CourtReservation({...})` document built by `createReservation`. -/
def mkDoc (newId : Nat) (req : CreateReq) (info : CreateInfo) : ResDoc :=
  { id := newId
    userId := req.userId
    date := req.date
    startTime := some info.startT
    endTime := req.endTime
    timeSlot := req.timeSlot
    duration := some info.duration
    players := req.players
    status := RStatus.confirmed
    paymentStatus := PayStatus.pending }

/-- The state right after `reservation.save()` succeeds: the new document is
persisted (and the fresh-id counter advances). -/
def afterBookingSave (req : CreateReq) (info : CreateInfo) (st : St) : St :=
  { st with reservations := mkDoc st.nextId req info :: st.reservations
            nextId := st.nextId + 1 }

/-- The state after the coin deduction that follows the booking save:
superadmins keep their balance, everyone else pays `info.cost`. -/
def afterDebit (req : CreateReq) (info : CreateInfo) (st : St) : St :=
  if info.user.role = Role.superadmin then afterBookingSave req info st
  else { afterBookingSave req info st with
         users := updateBalance st.users req.userId (-info.cost) }

/-- The `'spent'` `CoinTransaction` appended by `createReservation`
(amount 0 for superadmins). -/
def spentTxn (req : CreateReq) (info : CreateInfo) (st : St) : TxnDoc :=
  { userId := req.userId
    type := TxnType.spent
    amount := if info.user.role = Role.superadmin then 0 else info.cost
    referenceId := st.nextId }

/-- `createReservation`. After the pre-write checks: the booking save (running
the document validators and the `pre('save')` conflict hook, either of which
aborts with nothing persisted), then the coin deduction for non-superadmins,
then the `CoinTransaction.save()`, whose storage outcome is `txnSaveOk` —
when it throws, the controller answers with an error but the booking and the
balance deduction are already persisted. Returns the result (new booking id
on success) and the resulting state. -/
def createReservation (txnSaveOk : Bool) (req : CreateReq) (st : St) :
    Except CreateErr Nat × St :=
  match createChecks req st with
  | .error e => (.error e, st)
  | .ok info =>
    if ¬ validDoc st.today (mkDoc st.nextId req info) then (.error .validationFailed, st)
    else if preSaveConflict st.reservations (mkDoc st.nextId req info) then
      (.error .saveConflict, st)
    else if txnSaveOk then
      (.ok st.nextId,
       { afterDebit req info st with
         transactions := spentTxn req info st :: (afterDebit req info st).transactions })
    else (.error .storageFailure, afterDebit req info st)

/-! ## `cancelReservation` (`adminController.ts`) -/

/-- The failure exits of `cancelReservation`. -/
inductive CancelErr
  | notFound
  | forbidden
  | alreadyCancelled
  | alreadyCompleted
  | validationFailed
deriving DecidableEq, Repr

/-- A cancellation request: target reservation plus the authenticated actor. -/
structure CancelReq where
  reservationId : Nat
  userId : Nat
  role : Role
deriving DecidableEq, Repr

/-- JavaScript `x || 1` on the optional stored duration (`undefined` and `0`
are falsy). -/
def jsOrOne (x : Option Nat) : Nat :=
  match x with | some d => if d = 0 then 1 else d | none => 1

/-- `refundAmount = (reservation.duration || 1) * COIN_COSTS.COURT_RESERVATION`. -/
def refundAmount (r : ResDoc) : Int :=
  (jsOrOne r.duration : Int) * COURT_RESERVATION_COST

/-- The state after the cancellation save: the target document's status is
`'cancelled'`. -/
def afterCancelSave (rid : Nat) (st : St) : St :=
  { st with reservations := setResStatus st.reservations rid RStatus.cancelled }

/-- The state after the refund credit: superadmin owners get nothing back,
everyone else is credited `refundAmount`. -/
def afterRefund (r : ResDoc) (owner : UserDoc) (st : St) : St :=
  if owner.role = Role.superadmin then st
  else { st with users := updateBalance st.users r.userId (refundAmount r) }

/-- The `'earned'` refund `CoinTransaction` (amount 0 for superadmin owners). -/
def refundTxn (r : ResDoc) (owner : UserDoc) : TxnDoc :=
  { userId := r.userId
    type := TxnType.earned
    amount := if owner.role = Role.superadmin then 0 else refundAmount r
    referenceId := r.id }

/-- `cancelReservation`: find, ownership (owner or superadmin), not already
cancelled, not completed; then save the status change (re-running the
document validators, as mongoose does on every save; the conflict hook does
not fire because none of date/startTime/endTime/timeSlot is modified), then
refund `(duration || 1) * COIN_COSTS.COURT_RESERVATION` to the owning user
unless the owner is a superadmin, and append the refund transaction. -/
def cancelReservation (req : CancelReq) (st : St) : Except CancelErr Unit × St :=
  match findRes st.reservations req.reservationId with
  | none => (.error .notFound, st)
  | some r =>
    if req.role ≠ Role.superadmin ∧ r.userId ≠ req.userId then (.error .forbidden, st)
    else if r.status = RStatus.cancelled then (.error .alreadyCancelled, st)
    else if r.status = RStatus.completed then (.error .alreadyCompleted, st)
    else if ¬ validDoc st.today { r with status := RStatus.cancelled } then
      (.error .validationFailed, st)
    else
      match findUser st.users r.userId with
      | none => (.ok (), afterCancelSave req.reservationId st)
      | some owner =>
        (.ok (),
         { afterRefund r owner (afterCancelSave req.reservationId st) with
           transactions :=
             refundTxn r owner ::
               (afterRefund r owner (afterCancelSave req.reservationId st)).transactions })

/-! ## `createPaymentLog` (payment controller, `src/unnamed/part_008`) -/

/-- The failure exits of `createPaymentLog`. -/
inductive SettleErr
  | notApproved
  | missingFields
  | notFound
  | notInRoster
  | notCompleted
  | alreadySettled
  | calcFailed
  | amountMismatch
deriving DecidableEq, Repr

/-- A payment-log request: authenticated payer, target reservation, claimed
amount. -/
structure SettleReq where
  userId : Nat
  reservationId : Nat
  amount : ℚ
deriving DecidableEq, Repr

/-- `User.find({_id: {$in: playerIds}}, 'homeownerStatus ...')`: the user
documents whose id appears in the roster, in collection order, projected to
id and `homeownerStatus`. -/
def resolveRoster (users : List UserDoc) (playerIds : List Nat) : List Player :=
  (users.filter (fun u => playerIds.contains u.id)).map (fun u => ⟨u.id, u.hStatus⟩)

/-- The reservation's end instant in hours,
`new Date(date + "T" + (endTime || startTime))`. -/
def endMoment (r : ResDoc) : Nat :=
  r.date * 24 +
    (match r.endTime with
     | some e => e
     | none => match r.startTime with | some s => s | none => 0)

/-- `PaymentLog.findOne({userId, reservationId})` as a Boolean. -/
def existingPaymentFor (logs : List PLogDoc) (uid rid : Nat) : Bool :=
  logs.any (fun p => p.userId = uid && p.reservationId = some rid)

/-- `paymentCalculation` of `createPaymentLog`: the allocation recomputed over
the reservation's full roster for `reservation.duration || 1` hours. -/
def settleCalc (st : St) (r : ResDoc) : PaymentCalc :=
  calculatePlayerPayments (resolveRoster st.users r.players) ((jsOrOne r.duration : Nat) : ℚ)

/-- `totalCourtFee` of `createPaymentLog`: the `reduce` over
`playerPayments`, summing every member's `totalAmount`. -/
def totalCourtFee (st : St) (r : ResDoc) : ℚ :=
  ((settleCalc st r).playerPayments.map (fun p => p.totalAmount)).sum

/-- The `PaymentLog` document persisted by a successful `createPaymentLog`:
the full recomputed court fee, status `'pending'`, tagged with the payer's
class and rate. -/
def newPaymentLog (req : SettleReq) (st : St) (r : ResDoc) (userPayment : PlayerPayment) :
    PLogDoc :=
  { userId := req.userId
    reservationId := some req.reservationId
    amount := totalCourtFee st r
    hStatus := userPayment.hStatus
    ratePerHour := userPayment.ratePerHour
    status := PLStatus.pending }

/-- `createPaymentLog`: approved user, required fields (`!amount` is falsy at
zero), reservation exists, payer in its roster, reservation ended, no
existing payment log for (payer, reservation); then the allocation is
recomputed over the full roster, the claimed amount must match the summed
total court fee within 0.01, and one pending `PaymentLog` document for the
total is persisted. -/
def createPaymentLog (now : Nat) (req : SettleReq) (st : St) :
    Except SettleErr Unit × St :=
  match findUser st.users req.userId with
  | none => (.error .notApproved, st)
  | some u =>
    if ¬ u.isApproved then (.error .notApproved, st)
    else if req.amount = 0 then (.error .missingFields, st)
    else
      match findRes st.reservations req.reservationId with
      | none => (.error .notFound, st)
      | some r =>
        if ¬ r.players.contains req.userId then (.error .notInRoster, st)
        else if now < endMoment r then (.error .notCompleted, st)
        else if existingPaymentFor st.paymentLogs req.userId req.reservationId then
          (.error .alreadySettled, st)
        else
          match (settleCalc st r).playerPayments.find? (fun p => p.playerId = req.userId) with
          | none => (.error .calcFailed, st)
          | some userPayment =>
            if |req.amount - totalCourtFee st r| > 1 / 100 then (.error .amountMismatch, st)
            else
              (.ok (),
               { st with paymentLogs :=
                   newPaymentLog req st r userPayment :: st.paymentLogs })

/-! ## Concrete documents and states used by witnesses and counterexamples -/

/-- A stored legacy booking at `05:00` (only `timeSlot`, no range fields). -/
def legacyDoc5 : ResDoc :=
  { id := 1, userId := 7, date := 3, startTime := none, endTime := none,
    timeSlot := some 5, duration := none, players := [7],
    status := RStatus.confirmed, paymentStatus := PayStatus.pending }

/-- A candidate range booking `09:00`–`11:00` on the same date. -/
def candDoc911 : ResDoc :=
  { id := 2, userId := 8, date := 3, startTime := some 9, endTime := some 11,
    timeSlot := none, duration := some 2, players := [8],
    status := RStatus.confirmed, paymentStatus := PayStatus.pending }

/-- Scenario A roster: one homeowner and one non-homeowner. -/
def rosterA : List Player :=
  [⟨1, HStatus.homeowner⟩, ⟨2, HStatus.nonHomeowner⟩]

/-- An ordinary approved member with fees paid and 1000 coins. -/
def memberUser : UserDoc :=
  { id := 1, role := Role.member, isApproved := true, membershipFeesPaid := true,
    coinBalance := 1000, hStatus := HStatus.homeowner }

/-- A state with just `memberUser`, an empty calendar and no history. -/
def baseSt : St :=
  { today := 10, users := [memberUser], reservations := [], transactions := [],
    paymentLogs := [], nextId := 1 }

/-- A valid two-hour booking request (`09:00`–`11:00`) by `memberUser`. -/
def rangeReq : CreateReq :=
  { userId := 1, date := 10, startTime := some 9, endTime := some 11,
    timeSlot := none, players := [1] }

/-- A request identical to `rangeReq` but dated in the past. -/
def pastReq : CreateReq :=
  { userId := 1, date := 9, startTime := some 9, endTime := some 11,
    timeSlot := none, players := [1] }

/-- An otherwise valid request spanning `05:00`–`22:00` (17 hours). -/
def longReq : CreateReq :=
  { userId := 1, date := 10, startTime := some 5, endTime := some 22,
    timeSlot := none, players := [1] }

/-- A member with only 5 coins (Scenario C). -/
def poorUser : UserDoc :=
  { id := 2, role := Role.member, isApproved := true, membershipFeesPaid := true,
    coinBalance := 5, hStatus := HStatus.nonHomeowner }

/-- State holding only `poorUser`. -/
def poorSt : St :=
  { today := 10, users := [poorUser], reservations := [], transactions := [],
    paymentLogs := [], nextId := 1 }

/-- A one-hour booking request by `poorUser` (cost 10 coins). -/
def poorReq : CreateReq :=
  { userId := 2, date := 10, startTime := some 9, endTime := some 10,
    timeSlot := none, players := [2] }

/-- The same account shape as `poorUser` but with the superadmin role. -/
def superUser : UserDoc :=
  { id := 3, role := Role.superadmin, isApproved := true, membershipFeesPaid := true,
    coinBalance := 5, hStatus := HStatus.nonHomeowner }

/-- State holding only `superUser`. -/
def superSt : St :=
  { today := 10, users := [superUser], reservations := [], transactions := [],
    paymentLogs := [], nextId := 1 }

/-- The same one-hour booking request issued by `superUser`. -/
def superReq : CreateReq :=
  { userId := 3, date := 10, startTime := some 9, endTime := some 10,
    timeSlot := none, players := [3] }

/-- A homeowner member used in the settlement scenarios. -/
def settler : UserDoc :=
  { id := 1, role := Role.member, isApproved := true, membershipFeesPaid := true,
    coinBalance := 0, hStatus := HStatus.homeowner }

/-- A finished two-hour reservation whose roster is just `settler`. -/
def rSettle : ResDoc :=
  { id := 5, userId := 1, date := 3, startTime := some 9, endTime := some 11,
    timeSlot := none, duration := some 2, players := [1],
    status := RStatus.confirmed, paymentStatus := PayStatus.pending }

/-- State for the settlement scenarios: `settler` plus `rSettle`, no payment
logs yet. -/
def stSettle : St :=
  { today := 10, users := [settler], reservations := [rSettle], transactions := [],
    paymentLogs := [], nextId := 6 }

/-- `settler` settles `rSettle` claiming the correct 200 total. -/
def settleReq : SettleReq :=
  { userId := 1, reservationId := 5, amount := 200 }

/-- The payment-log entry of `settler` for `rSettle` (already recorded). -/
def dupLog : PLogDoc :=
  { userId := 1, reservationId := some 5, amount := 200,
    hStatus := HStatus.homeowner, ratePerHour := 100, status := PLStatus.pending }

/-- `stSettle` after the payment for `rSettle` has already been logged. -/
def dupSt : St :=
  { stSettle with paymentLogs := [dupLog] }

/-! ## Theorems -/

/-- Every roster member is exactly one of the two classes, so the two class
counts add up to the roster size. -/
theorem homeownerCount_add_nonHomeownerCount (players : List Player) :
    homeownerCount players + nonHomeownerCount players = players.length := by
  induction players with
  | nil => rfl
  | cons p ps ih =>
    unfold homeownerCount nonHomeownerCount at *
    cases hp : p.hStatus <;> simp [List.filter_cons, hp] <;> omega

/-- Summing a per-class quantity over the roster counts each class. -/
theorem sum_map_classFun (players : List Player) (f : HStatus → ℚ) :
    (players.map (fun p => f p.hStatus)).sum
      = (homeownerCount players : ℚ) * f HStatus.homeowner
        + (nonHomeownerCount players : ℚ) * f HStatus.nonHomeowner := by
  induction players with
  | nil => simp [homeownerCount, nonHomeownerCount]
  | cons p ps ih =>
    unfold homeownerCount nonHomeownerCount at *
    cases hp : p.hStatus <;> simp [List.filter_cons, hp, ih] <;> ring

/-- The post-adjustment class rates, weighted by the class counts, recover
`actualTotal` exactly (the shortfall is divided by the roster size and added
back once per member). -/
theorem sum_class_rates_eq_actualTotal (players : List Player) (hne : players ≠ []) :
    (homeownerCount players : ℚ) * homeownerRate players
      + (nonHomeownerCount players : ℚ) * nonHomeownerRate players
      = actualTotal players := by
  have hlen : homeownerCount players + nonHomeownerCount players = players.length :=
    homeownerCount_add_nonHomeownerCount players
  have hpos : ((homeownerCount players : ℚ) + (nonHomeownerCount players : ℚ)) ≠ 0 := by
    have hl : players.length ≠ 0 := by
      simpa [List.length_eq_zero] using hne
    rw [← Nat.cast_add, hlen]
    exact_mod_cast hl
  unfold homeownerRate nonHomeownerRate additionalPerPlayer
  by_cases hgt : actualTotal players > calculatedTotal players
  · rw [if_pos hgt]
    have hsplit :
        (homeownerCount players : ℚ) *
            (HOMEOWNER_RATE + (actualTotal players - calculatedTotal players) /
              ((homeownerCount players : ℚ) + (nonHomeownerCount players : ℚ)))
          + (nonHomeownerCount players : ℚ) *
            (NON_HOMEOWNER_RATE + (actualTotal players - calculatedTotal players) /
              ((homeownerCount players : ℚ) + (nonHomeownerCount players : ℚ)))
          = calculatedTotal players
            + ((homeownerCount players : ℚ) + (nonHomeownerCount players : ℚ)) *
              ((actualTotal players - calculatedTotal players) /
                ((homeownerCount players : ℚ) + (nonHomeownerCount players : ℚ))) := by
      unfold calculatedTotal
      ring
    rw [hsplit, mul_div_cancel₀ _ hpos]
    ring
  · rw [if_neg hgt]
    have hEq : actualTotal players = calculatedTotal players :=
      le_antisymm (not_lt.mp hgt) (le_max_left _ _)
    rw [hEq]
    unfold calculatedTotal
    ring

/-- C2: with the configured constants, for every nonempty roster whose raw
per-hour total is strictly below the minimum, the allocation's
`summary.totalPerHour` is exactly the minimum, and the returned per-member
`ratePerHour` values sum to `totalPerHour` over the whole roster. -/
theorem C2_minimum_floor_total_and_rate_sum (players : List Player) (d : ℚ)
    (hne : players ≠ []) (hraw : calculatedTotal players < MINIMUM_TOTAL) :
    (calculatePlayerPayments players d).summary.totalPerHour = MINIMUM_TOTAL ∧
    ((calculatePlayerPayments players d).playerPayments.map (fun p => p.ratePerHour)).sum
      = (calculatePlayerPayments players d).summary.totalPerHour := by
  have hact : actualTotal players = MINIMUM_TOTAL := max_eq_right hraw.le
  constructor
  · simpa [calculatePlayerPayments] using hact
  · show (List.map _ (players.map _)).sum = _
    rw [List.map_map]
    have hcomp :
        (List.map ((fun pp : PlayerPayment => pp.ratePerHour) ∘ fun p : Player =>
          ({ playerId := p.id, hStatus := p.hStatus,
             ratePerHour := rateOf players p.hStatus,
             totalAmount := rateOf players p.hStatus * d } : PlayerPayment)) players).sum
          = (players.map (fun p => rateOf players p.hStatus)).sum := rfl
    rw [hcomp, sum_map_classFun players (rateOf players)]
    show _ = actualTotal players
    have h1 : rateOf players HStatus.homeowner = homeownerRate players := if_pos rfl
    have h2 : rateOf players HStatus.nonHomeowner = nonHomeownerRate players := by
      unfold rateOf
      simp
    rw [h1, h2]
    exact sum_class_rates_eq_actualTotal players hne

/-- Witness for C2 on a one-homeowner roster (raw total 25 < 100). -/
theorem C2_minimum_floor_total_and_rate_sum_witness :
    ([(⟨1, HStatus.homeowner⟩ : Player)] ≠ []) ∧
    calculatedTotal [⟨1, HStatus.homeowner⟩] < MINIMUM_TOTAL ∧
    ((calculatePlayerPayments [⟨1, HStatus.homeowner⟩] 1).summary.totalPerHour = MINIMUM_TOTAL ∧
     ((calculatePlayerPayments [⟨1, HStatus.homeowner⟩] 1).playerPayments.map
        (fun p => p.ratePerHour)).sum
       = (calculatePlayerPayments [⟨1, HStatus.homeowner⟩] 1).summary.totalPerHour) :=
  ⟨by decide,
   by
     simp +decide [calculatedTotal, homeownerCount, nonHomeownerCount, List.filter,
       HOMEOWNER_RATE, NON_HOMEOWNER_RATE, MINIMUM_TOTAL],
   C2_minimum_floor_total_and_rate_sum [⟨1, HStatus.homeowner⟩] 1 (by decide)
     (by
       simp +decide [calculatedTotal, homeownerCount, nonHomeownerCount, List.filter,
         HOMEOWNER_RATE, NON_HOMEOWNER_RATE, MINIMUM_TOTAL])⟩

/-- C3 (Scenario A): one homeowner and one non-homeowner for two hours yield
effective rates 37.5 and 62.5 per hour, per-member amounts 75 and 125,
`totalPerHour` 100 and `grandTotal` 200. -/
theorem C3_scenario_A :
    (calculatePlayerPayments rosterA 2).summary.homeownerRatePerHour = 75 / 2 ∧
    (calculatePlayerPayments rosterA 2).summary.nonHomeownerRatePerHour = 125 / 2 ∧
    ((calculatePlayerPayments rosterA 2).playerPayments.map (fun p => p.ratePerHour))
      = [75 / 2, 125 / 2] ∧
    ((calculatePlayerPayments rosterA 2).playerPayments.map (fun p => p.totalAmount))
      = [75, 125] ∧
    (calculatePlayerPayments rosterA 2).summary.totalPerHour = 100 ∧
    (calculatePlayerPayments rosterA 2).summary.grandTotal = 200 := by
  refine ⟨?_, ?_, ?_, ?_, ?_, ?_⟩ <;>
    simp +decide [calculatePlayerPayments, rosterA, rateOf, homeownerRate, nonHomeownerRate,
      additionalPerPlayer, actualTotal, calculatedTotal, homeownerCount, nonHomeownerCount,
      HOMEOWNER_RATE, NON_HOMEOWNER_RATE, MINIMUM_TOTAL, List.filter, max_def] <;>
    norm_num

/-- C1: on the slot grid, for candidate `[start, endT)` and existing `[s, e)`
with `start < endT` and `s < e`, the controller's three-case overlap test
holds exactly when the half-open intervals intersect
(`start < e ∧ s < endT`). -/
theorem C1_three_case_overlap_iff_intersect
    (start endT s e : Nat)
    (hvs : validSlot start = true) (hve : validSlot endT = true)
    (hvs2 : validSlot s = true) (hve2 : validSlot e = true)
    (hc : start < endT) (hx : s < e) :
    threeCaseOverlap (some s) (some e) start endT = true ↔ (start < e ∧ s < endT) := by
  simp only [threeCaseOverlap, oLE, oGT, oLT, oGE, Bool.or_eq_true, Bool.and_eq_true,
    decide_eq_true_eq]
  omega

/-- Witness for C1 at the concrete ranges `[9, 11)` and `[10, 12)`. -/
theorem C1_three_case_overlap_iff_intersect_witness :
    validSlot 9 = true ∧ validSlot 11 = true ∧ validSlot 10 = true ∧ validSlot 12 = true ∧
    (9 : Nat) < 11 ∧ (10 : Nat) < 12 ∧
    (threeCaseOverlap (some 10) (some 12) 9 11 = true ↔ ((9 : Nat) < 12 ∧ (10 : Nat) < 11)) :=
  ⟨by decide, by decide, by decide, by decide, by decide, by decide,
   C1_three_case_overlap_iff_intersect 9 11 10 12 (by decide) (by decide) (by decide)
     (by decide) (by decide) (by decide)⟩

/-- C4: the claim fails on the model's `pre('save')` hook. For the candidate
range `[09:00, 11:00)` and a stored legacy booking at `05:00` on the same
date, the slot `5` is outside the candidate range, the controller's conflict
query (which expands the range with `generateTimeSlotsBetween`) correctly
reports no conflict, yet the hook's query — whose legacy clause is
`{timeSlot: {$exists: true, $ne: null}}` — reports a conflict. -/
theorem C4_presave_legacy_not_unit_range :
    (∀ t s e : Nat, (generateTimeSlotsBetween s e).contains t = true ↔ (s ≤ t ∧ t < e)) ∧
    (generateTimeSlotsBetween 9 11).contains 5 = false ∧
    hasControllerRangeConflict [legacyDoc5] 3 9 11 = false ∧
    preSaveConflict [legacyDoc5] candDoc911 = true := by
  refine ⟨fun t s e => ?_, by decide, by decide, by decide⟩
  simp only [generateTimeSlotsBetween, List.contains, List.elem_iff, List.mem_map,
    List.mem_range]
  constructor
  · rintro ⟨k, hk, rfl⟩
    omega
  · rintro ⟨h1, h2⟩
    exact ⟨t - s, by omega, by omega⟩

/-- Looking up the user whose balance was just updated sees exactly the
balance shift. -/
theorem findUser_updateBalance (users : List UserDoc) (uid : Nat) (δ : Int) :
    findUser (updateBalance users uid δ) uid
      = (findUser users uid).map (fun u => { u with coinBalance := u.coinBalance + δ }) := by
  induction users with
  | nil => rfl
  | cons u us ih =>
    unfold findUser updateBalance at *
    by_cases hu : u.id = uid
    · simp [hu, List.find?_cons]
    · simp [hu, List.find?_cons, ih]

/-- The reservations persisted after the debit step: the new document in
front of the old calendar, whether or not the actor is a superadmin. -/
theorem afterDebit_reservations (req : CreateReq) (info : CreateInfo) (st : St) :
    (afterDebit req info st).reservations = mkDoc st.nextId req info :: st.reservations := by
  unfold afterDebit afterBookingSave
  split_ifs <;> rfl

/-- The debit step does not move the clock. -/
theorem afterDebit_today (req : CreateReq) (info : CreateInfo) (st : St) :
    (afterDebit req info st).today = st.today := by
  unfold afterDebit afterBookingSave
  split_ifs <;> rfl

/-- Anatomy of a successful `createReservation`: every pre-write check passed,
the document validated, the save hook found no conflict, the transaction save
succeeded, the returned id is the fresh one, and the final state is the
post-debit state plus the spent transaction. -/
theorem createReservation_ok_elim {txnOk : Bool} {req : CreateReq} {st : St}
    {n : Nat} {st' : St}
    (h : createReservation txnOk req st = (Except.ok n, st')) :
    ∃ info, createChecks req st = Except.ok info ∧
      validDoc st.today (mkDoc st.nextId req info) = true ∧
      preSaveConflict st.reservations (mkDoc st.nextId req info) = false ∧
      txnOk = true ∧ n = st.nextId ∧
      st' = { afterDebit req info st with
              transactions := spentTxn req info st :: (afterDebit req info st).transactions } := by
  unfold createReservation at h
  cases hc : createChecks req st with
  | error e => rw [hc] at h; simp at h
  | ok info =>
    rw [hc] at h
    dsimp only at h
    by_cases hv : validDoc st.today (mkDoc st.nextId req info) = true
    · rw [if_neg (not_not_intro hv)] at h
      by_cases hp : preSaveConflict st.reservations (mkDoc st.nextId req info) = true
      · rw [if_pos hp] at h; simp at h
      · rw [if_neg hp] at h
        cases txnOk with
        | false => rw [if_neg (by simp)] at h; simp at h
        | true =>
          rw [if_pos rfl, Prod.mk.injEq] at h
          obtain ⟨h1, h2⟩ := h
          exact ⟨info, rfl, hv, by simpa using hp, rfl, by simpa using h1.symm, h2.symm⟩
    · rw [if_pos (by simpa using hv)] at h; simp at h

/-- Anatomy of a failed `createReservation` when the transaction save does not
throw: every error exit happens before the first write, so the state is
untouched. -/
theorem createReservation_error_elim {req : CreateReq} {st : St}
    {e : CreateErr} {st' : St}
    (h : createReservation true req st = (Except.error e, st')) : st' = st := by
  unfold createReservation at h
  cases hc : createChecks req st with
  | error e0 => rw [hc] at h; rw [Prod.mk.injEq] at h; exact h.2.symm
  | ok info =>
    rw [hc] at h
    dsimp only at h
    by_cases hv : validDoc st.today (mkDoc st.nextId req info) = true
    · rw [if_neg (not_not_intro hv)] at h
      by_cases hp : preSaveConflict st.reservations (mkDoc st.nextId req info) = true
      · rw [if_pos hp, Prod.mk.injEq] at h; exact h.2.symm
      · rw [if_neg hp, if_pos rfl] at h; simp at h
    · rw [if_pos (by simpa using hv), Prod.mk.injEq] at h; exact h.2.symm

/-- C7 (as amended): with the persistence layer up, every error return of
`createReservation` leaves the stored state exactly as it was — no booking,
no ledger entry, no balance change. -/
theorem C7_failed_create_leaves_state_unchanged
    (req : CreateReq) (st : St) (e : CreateErr) (st' : St)
    (h : createReservation true req st = (Except.error e, st')) : st' = st :=
  createReservation_error_elim h

/-- Witness for the amended C7: the past-dated request fails and leaves the
base state untouched. -/
theorem C7_failed_create_leaves_state_unchanged_witness :
    (createReservation true pastReq baseSt).2 = baseSt :=
  C7_failed_create_leaves_state_unchanged pastReq baseSt CreateErr.invalidDate
    (createReservation true pastReq baseSt).2 (by decide)

/-- C7 counterexample: the claim as stated is false. When the
`CoinTransaction.save()` call throws after the booking save, the controller
answers with an error, yet the booking is persisted, the balance is already
deducted, and no ledger entry exists. -/
theorem C7_counterexample_partial_state_on_error :
    (createReservation false rangeReq baseSt).1 = Except.error CreateErr.storageFailure ∧
    (createReservation false rangeReq baseSt).2.reservations ≠ [] ∧
    (createReservation false rangeReq baseSt).2.transactions = [] ∧
    findUser (createReservation false rangeReq baseSt).2.users 1 ≠ findUser baseSt.users 1 := by
  decide

/-- C10: every booking accepted by `createReservation` is persisted with a
stored duration between 1 and 8 hours, and the otherwise-valid 17-hour
request `05:00`–`22:00` is rejected (by the schema's duration validator)
without being persisted. -/
theorem C10_duration_bounds :
    (∀ (txnOk : Bool) (req : CreateReq) (st : St) (n : Nat) (st' : St),
       createReservation txnOk req st = (Except.ok n, st') →
       ∃ doc rest, st'.reservations = doc :: rest ∧
         ∃ k, doc.duration = some k ∧ 1 ≤ k ∧ k ≤ 8) ∧
    createReservation true longReq baseSt = (Except.error CreateErr.validationFailed, baseSt) := by
  constructor
  · intro txnOk req st n st' h
    obtain ⟨info, _, hv, _, _, _, hst⟩ := createReservation_ok_elim h
    refine ⟨mkDoc st.nextId req info, st.reservations, ?_, info.duration, rfl, ?_, ?_⟩
    · rw [hst]
      show (afterDebit req info st).reservations = _
      exact afterDebit_reservations req info st
    · simp only [validDoc, mkDoc, Bool.and_eq_true, decide_eq_true_eq] at hv
      exact hv.1.2.1
    · simp only [validDoc, mkDoc, Bool.and_eq_true, decide_eq_true_eq] at hv
      exact hv.1.2.2
  · decide

/-- Witness for C10 on a successful two-hour booking. -/
theorem C10_duration_bounds_witness :
    ∃ doc rest, (createReservation true rangeReq baseSt).2.reservations = doc :: rest ∧
      ∃ k, doc.duration = some k ∧ 1 ≤ k ∧ k ≤ 8 :=
  C10_duration_bounds.1 true rangeReq baseSt 1 (createReservation true rangeReq baseSt).2
    (by decide)

/-- A successful post-time check pins the acting user to the result. -/
theorem postTimeChecks_ok_user {req : CreateReq} {st : St} {startT : Nat}
    {endT : Option Nat} {duration : Nat} {info : CreateInfo}
    (h : postTimeChecks req st startT endT duration = Except.ok info) :
    findUser st.users req.userId = some info.user := by
  unfold postTimeChecks at h
  cases hf : findUser st.users req.userId with
  | none => rw [hf] at h; simp at h
  | some u =>
    rw [hf] at h
    dsimp only at h
    by_cases h1 : ¬ u.membershipFeesPaid = true
    · rw [if_pos h1] at h; simp at h
    · rw [if_neg h1] at h
      by_cases h2 : u.role ≠ Role.superadmin ∧ hasUnsettledPayments st.paymentLogs req.userId = true
      · rw [if_pos h2] at h; simp at h
      · rw [if_neg h2] at h
        by_cases h3 : u.role ≠ Role.superadmin ∧
            u.coinBalance < (duration : Int) * COURT_RESERVATION_COST
        · rw [if_pos h3] at h; simp at h
        · rw [if_neg h3] at h
          simp only [Except.ok.injEq] at h
          rw [← h]

/-- A successful pre-write check phase pins the acting user to the result. -/
theorem createChecks_ok_user {req : CreateReq} {st : St} {info : CreateInfo}
    (h : createChecks req st = Except.ok info) :
    findUser st.users req.userId = some info.user := by
  unfold createChecks at h
  by_cases hd : req.date < st.today
  · rw [if_pos hd] at h; simp at h
  · rw [if_neg hd] at h
    cases ho : req.startTime.orElse (fun _ => req.timeSlot) with
    | none => rw [ho] at h; simp at h
    | some startT =>
      rw [ho] at h
      dsimp only at h
      cases he : req.endTime with
      | some endT =>
        rw [he] at h
        dsimp only at h
        by_cases h1 : ¬ (validSlot startT && validSlot endT) = true
        · rw [if_pos h1] at h; simp at h
        · rw [if_neg h1] at h
          by_cases h2 : endT ≤ startT
          · rw [if_pos h2] at h; simp at h
          · rw [if_neg h2] at h
            by_cases h3 : hasControllerRangeConflict st.reservations req.date startT endT = true
            · rw [if_pos h3] at h; simp at h
            · rw [if_neg h3] at h
              exact postTimeChecks_ok_user h
      | none =>
        rw [he] at h
        dsimp only at h
        by_cases h1 : ¬ validSlot startT = true
        · rw [if_pos h1] at h; simp at h
        · rw [if_neg h1] at h
          by_cases h2 : hasControllerLegacyConflict st.reservations req.date startT = true
          · rw [if_pos h2] at h; simp at h
          · rw [if_neg h2] at h
            exact postTimeChecks_ok_user h

/-- C6: with every earlier check of `createReservation` passing, (a) a
non-superadmin whose balance is below `duration * COIN_COSTS.COURT_RESERVATION`
gets the insufficient-coins failure and an unchanged state, and (b) a
superadmin issuing the same request succeeds with the user documents (hence
the balance) untouched and a zero-amount `'spent'` `CoinTransaction`
appended. -/
theorem C6_insufficient_balance_vs_exempt
    (txnOk : Bool) (req : CreateReq) (st : St) (startT endT : Nat) (u : UserDoc)
    (hdate : ¬ req.date < st.today)
    (hstart : req.startTime.orElse (fun _ => req.timeSlot) = some startT)
    (hend : req.endTime = some endT)
    (hvs : validSlot startT = true)
    (hve : validSlot endT = true)
    (hlt : startT < endT)
    (hconf : hasControllerRangeConflict st.reservations req.date startT endT = false)
    (hfind : findUser st.users req.userId = some u)
    (hfees : u.membershipFeesPaid = true)
    (hpend : hasUnsettledPayments st.paymentLogs req.userId = false) :
    (u.role ≠ Role.superadmin →
      u.coinBalance < (calculateDuration startT endT : Int) * COURT_RESERVATION_COST →
      createReservation txnOk req st = (Except.error CreateErr.insufficientBalance, st)) ∧
    (u.role = Role.superadmin →
      validDoc st.today
          (mkDoc st.nextId req ⟨u, startT, some endT, calculateDuration startT endT⟩) = true →
      preSaveConflict st.reservations
          (mkDoc st.nextId req ⟨u, startT, some endT, calculateDuration startT endT⟩) = false →
      createReservation true req st =
        (Except.ok st.nextId,
         { afterBookingSave req ⟨u, startT, some endT, calculateDuration startT endT⟩ st with
           transactions :=
             ({ userId := req.userId, type := TxnType.spent, amount := 0,
                referenceId := st.nextId } : TxnDoc) :: st.transactions })) := by
  have hno : ¬ endT ≤ startT := by omega
  constructor
  · intro hrole hbal
    have hcc : createChecks req st = Except.error CreateErr.insufficientBalance := by
      unfold createChecks postTimeChecks
      rw [if_neg hdate, hstart]
      dsimp only
      rw [hend]
      dsimp only
      rw [if_neg (by simp [hvs, hve]), if_neg hno, if_neg (by simp [hconf]), hfind]
      dsimp only
      rw [if_neg (by simp [hfees]), if_neg (by simp [hpend]), if_pos ⟨hrole, hbal⟩]
    unfold createReservation
    rw [hcc]
  · intro hrole hv hp
    have hcc : createChecks req st
        = Except.ok ⟨u, startT, some endT, calculateDuration startT endT⟩ := by
      unfold createChecks postTimeChecks
      rw [if_neg hdate, hstart]
      dsimp only
      rw [hend]
      dsimp only
      rw [if_neg (by simp [hvs, hve]), if_neg hno, if_neg (by simp [hconf]), hfind]
      dsimp only
      rw [if_neg (by simp [hfees]), if_neg (by simp [hrole]), if_neg (by simp [hrole])]
    unfold createReservation
    rw [hcc]
    dsimp only
    rw [if_neg (not_not_intro hv), if_neg (by simp [hp]), if_pos rfl]
    simp only [Prod.mk.injEq]
    refine ⟨trivial, ?_⟩
    unfold afterDebit spentTxn
    rw [if_pos hrole, if_pos hrole]
    rfl

/-- Witness for C6 (Scenario C): balance 5 against a 10-coin one-hour booking
fails for a member; the superadmin twin succeeds with users untouched and a
zero-amount spent entry. -/
theorem C6_insufficient_balance_vs_exempt_witness :
    createReservation true poorReq poorSt
      = (Except.error CreateErr.insufficientBalance, poorSt) ∧
    createReservation true superReq superSt =
      (Except.ok 1,
       { afterBookingSave superReq ⟨superUser, 9, some 10, 1⟩ superSt with
         transactions :=
           ({ userId := 3, type := TxnType.spent, amount := 0,
              referenceId := 1 } : TxnDoc) :: superSt.transactions }) :=
  ⟨(C6_insufficient_balance_vs_exempt true poorReq poorSt 9 10 poorUser
      (by decide) rfl rfl (by decide) (by decide) (by decide) (by decide) rfl
      (by decide) (by decide)).1 (by decide) (by decide),
   (C6_insufficient_balance_vs_exempt true superReq superSt 9 10 superUser
      (by decide) rfl rfl (by decide) (by decide) (by decide) (by decide) rfl
      (by decide) (by decide)).2 rfl (by decide) (by decide)⟩

/-- C5: for a non-superadmin account, cancelling a booking it just created
restores its coin balance exactly (the refund credited on cancel equals the
coin cost debited on create). -/
theorem C5_create_cancel_restores_balance
    (req : CreateReq) (st : St) (u : UserDoc) (n : Nat) (stA : St)
    (hu : findUser st.users req.userId = some u)
    (hrole : u.role ≠ Role.superadmin)
    (hrun : createReservation true req st = (Except.ok n, stA)) :
    ∃ v, findUser (cancelReservation ⟨n, req.userId, u.role⟩ stA).2.users req.userId = some v ∧
      v.coinBalance = u.coinBalance := by
  obtain ⟨info, hcc, hv, hp, _, hn, hst⟩ := createReservation_ok_elim hrun
  have huser : info.user = u := by
    have h1 := createChecks_ok_user hcc
    rw [hu] at h1
    exact (Option.some.injEq _ _ ▸ h1.symm)
  have hroleI : ¬ info.user.role = Role.superadmin := by rw [huser]; exact hrole
  have hdur : 1 ≤ info.duration ∧ info.duration ≤ 8 := by
    simp only [validDoc, mkDoc, Bool.and_eq_true, decide_eq_true_eq] at hv
    exact hv.1.2
  have hd0 : ¬ info.duration = 0 := by omega
  have hrefund : refundAmount (mkDoc st.nextId req info) = info.cost := by
    show (jsOrOne (some info.duration) : Int) * COURT_RESERVATION_COST = _
    unfold jsOrOne
    dsimp only
    rw [if_neg hd0]
    rfl
  have F1 : stA.users = updateBalance st.users req.userId (-info.cost) := by
    rw [hst]
    show (afterDebit req info st).users = _
    unfold afterDebit
    rw [if_neg hroleI]
  have F2 : stA.reservations = mkDoc st.nextId req info :: st.reservations := by
    rw [hst]
    show (afterDebit req info st).reservations = _
    exact afterDebit_reservations req info st
  have F3 : stA.today = st.today := by
    rw [hst]
    show (afterDebit req info st).today = _
    exact afterDebit_today req info st
  subst hn
  have hres : findRes stA.reservations st.nextId = some (mkDoc st.nextId req info) := by
    rw [F2]
    unfold findRes
    rw [List.find?_cons_of_pos]
    simp [mkDoc]
  have howner : findUser stA.users (mkDoc st.nextId req info).userId
      = some { u with coinBalance := u.coinBalance + -info.cost } := by
    show findUser stA.users req.userId = _
    rw [F1, findUser_updateBalance, hu]
    rfl
  have hval2 : validDoc stA.today
      { mkDoc st.nextId req info with status := RStatus.cancelled } = true := by
    rw [F3]
    exact hv
  unfold cancelReservation
  rw [hres]
  dsimp only
  rw [if_neg (by simp [mkDoc]), if_neg (by simp [mkDoc]), if_neg (by simp [mkDoc]),
    if_neg (not_not_intro hval2), howner]
  dsimp only
  refine ⟨{ u with coinBalance :=
      u.coinBalance + -info.cost + refundAmount (mkDoc st.nextId req info) }, ?_, ?_⟩
  · unfold afterRefund
    rw [if_neg (show ¬({ u with coinBalance := u.coinBalance + -info.cost } : UserDoc).role
        = Role.superadmin from hrole)]
    show findUser
        (updateBalance stA.users req.userId (refundAmount (mkDoc st.nextId req info)))
        req.userId = _
    rw [F1, findUser_updateBalance, findUser_updateBalance, hu]
    rfl
  · show u.coinBalance + -info.cost + refundAmount (mkDoc st.nextId req info) = u.coinBalance
    rw [hrefund]
    omega

/-- Witness for C5: `memberUser` books `09:00`–`11:00`, then cancels it; the
balance is back to 1000. -/
theorem C5_create_cancel_restores_balance_witness :
    ∃ v, findUser
        (cancelReservation ⟨1, 1, Role.member⟩
          (createReservation true rangeReq baseSt).2).2.users 1 = some v ∧
      v.coinBalance = memberUser.coinBalance :=
  C5_create_cancel_restores_balance rangeReq baseSt memberUser 1
    (createReservation true rangeReq baseSt).2 rfl (by decide) (by decide)

/-- The summed per-member `totalAmount`s (the source's `reduce`) equal the
summary's `grandTotal` for every nonempty roster. -/
theorem sum_totalAmount_eq_grandTotal (players : List Player) (d : ℚ)
    (hne : players ≠ []) :
    ((calculatePlayerPayments players d).playerPayments.map (fun p => p.totalAmount)).sum
      = (calculatePlayerPayments players d).summary.grandTotal := by
  show (List.map _ (players.map _)).sum = _
  rw [List.map_map]
  have hcomp : (List.map ((fun pp : PlayerPayment => pp.totalAmount) ∘ fun p : Player =>
      ({ playerId := p.id, hStatus := p.hStatus, ratePerHour := rateOf players p.hStatus,
         totalAmount := rateOf players p.hStatus * d } : PlayerPayment)) players).sum
      = (players.map (fun p => rateOf players p.hStatus * d)).sum := rfl
  rw [hcomp, sum_map_classFun players (fun h => rateOf players h * d)]
  show _ = actualTotal players * d
  have h1 : rateOf players HStatus.homeowner = homeownerRate players := if_pos rfl
  have h2 : rateOf players HStatus.nonHomeowner = nonHomeownerRate players := by
    unfold rateOf
    simp
  rw [h1, h2]
  have hs := sum_class_rates_eq_actualTotal players hne
  calc (homeownerCount players : ℚ) * (homeownerRate players * d)
        + (nonHomeownerCount players : ℚ) * (nonHomeownerRate players * d)
      = ((homeownerCount players : ℚ) * homeownerRate players
          + (nonHomeownerCount players : ℚ) * nonHomeownerRate players) * d := by ring
    _ = actualTotal players * d := by rw [hs]

/-- `totalCourtFee` coincides with the recomputed summary `grandTotal`
whenever the resolved roster is nonempty. -/
theorem totalCourtFee_eq_grandTotal (st : St) (r : ResDoc)
    (hne : resolveRoster st.users r.players ≠ []) :
    totalCourtFee st r = (settleCalc st r).summary.grandTotal :=
  sum_totalAmount_eq_grandTotal (resolveRoster st.users r.players)
    ((jsOrOne r.duration : Nat) : ℚ) hne

/-- C8: once the guards of `createPaymentLog` pass, the call fails with the
amount-mismatch error exactly when the claimed amount differs from the
recomputed grand total by more than 0.01, and on success it persists exactly
one new `PaymentLog`, pending, for the recomputed total. -/
theorem C8_settle_amount_check
    (now : Nat) (req : SettleReq) (st : St) (u : UserDoc) (r : ResDoc) (up : PlayerPayment)
    (hfu : findUser st.users req.userId = some u)
    (happ : u.isApproved = true)
    (hamt : ¬ req.amount = 0)
    (hfr : findRes st.reservations req.reservationId = some r)
    (hin : r.players.contains req.userId = true)
    (hdone : ¬ now < endMoment r)
    (hdup : existingPaymentFor st.paymentLogs req.userId req.reservationId = false)
    (hup : (settleCalc st r).playerPayments.find? (fun p => p.playerId = req.userId)
      = some up) :
    ((createPaymentLog now req st).1 = Except.error SettleErr.amountMismatch ↔
      |req.amount - (settleCalc st r).summary.grandTotal| > 1 / 100) ∧
    (|req.amount - (settleCalc st r).summary.grandTotal| ≤ 1 / 100 →
      createPaymentLog now req st =
        (Except.ok (),
         { st with paymentLogs :=
             ({ userId := req.userId
                reservationId := some req.reservationId
                amount := (settleCalc st r).summary.grandTotal
                hStatus := up.hStatus
                ratePerHour := up.ratePerHour
                status := PLStatus.pending } : PLogDoc) :: st.paymentLogs })) := by
  have hne : resolveRoster st.users r.players ≠ [] := by
    intro hnil
    have hmem := List.mem_of_find?_eq_some hup
    have hnil2 : (settleCalc st r).playerPayments = [] := by
      show (resolveRoster st.users r.players).map _ = []
      rw [hnil]
      rfl
    rw [hnil2] at hmem
    exact absurd hmem (List.not_mem_nil up)
  have htf : totalCourtFee st r = (settleCalc st r).summary.grandTotal :=
    totalCourtFee_eq_grandTotal st r hne
  have heval : createPaymentLog now req st =
      (if |req.amount - totalCourtFee st r| > 1 / 100 then
        (Except.error SettleErr.amountMismatch, st)
      else
        (Except.ok (), { st with paymentLogs := newPaymentLog req st r up :: st.paymentLogs })) := by
    unfold createPaymentLog
    rw [hfu]
    dsimp only
    rw [if_neg (by simp [happ]), if_neg hamt, hfr]
    dsimp only
    rw [if_neg (not_not_intro hin), if_neg hdone, if_neg (by simp [hdup]), hup]
  constructor
  · rw [heval]
    by_cases hgt : |req.amount - totalCourtFee st r| > 1 / 100
    · rw [if_pos hgt]
      rw [htf] at hgt
      exact iff_of_true rfl hgt
    · rw [if_neg hgt]
      rw [htf] at hgt
      exact iff_of_false (by simp) hgt
  · intro hle
    rw [heval, htf, if_neg (not_lt.mpr hle)]
    unfold newPaymentLog
    rw [htf]

/-- C9: (a) once the earlier guards of `createPaymentLog` pass, an existing
payment log for the same (account, reservation) pair makes the call fail
already-settled with the state unchanged; (b) a second identical call right
after a successful settlement fails already-settled and leaves the state of
the first call unchanged. -/
theorem C9_one_payment_per_account_booking (now : Nat) (req : SettleReq) (st : St) :
    (∀ u r, findUser st.users req.userId = some u → u.isApproved = true →
      ¬ req.amount = 0 → findRes st.reservations req.reservationId = some r →
      r.players.contains req.userId = true → ¬ now < endMoment r →
      existingPaymentFor st.paymentLogs req.userId req.reservationId = true →
      createPaymentLog now req st = (Except.error SettleErr.alreadySettled, st)) ∧
    (∀ st', createPaymentLog now req st = (Except.ok (), st') →
      createPaymentLog now req st' = (Except.error SettleErr.alreadySettled, st')) := by
  constructor
  · intro u r hfu happ hamt hfr hin hdone hdup
    unfold createPaymentLog
    rw [hfu]
    dsimp only
    rw [if_neg (by simp [happ]), if_neg hamt, hfr]
    dsimp only
    rw [if_neg (not_not_intro hin), if_neg hdone, if_pos hdup]
  · intro st' h
    unfold createPaymentLog at h
    cases hfu : findUser st.users req.userId with
    | none => rw [hfu] at h; simp at h
    | some u =>
      rw [hfu] at h
      dsimp only at h
      by_cases h1 : ¬ u.isApproved = true
      · rw [if_pos h1] at h; simp at h
      · rw [if_neg h1] at h
        by_cases h2 : req.amount = 0
        · rw [if_pos h2] at h; simp at h
        · rw [if_neg h2] at h
          cases hfr : findRes st.reservations req.reservationId with
          | none => rw [hfr] at h; simp at h
          | some r =>
            rw [hfr] at h
            dsimp only at h
            by_cases h3 : ¬ r.players.contains req.userId = true
            · rw [if_pos h3] at h; simp at h
            · rw [if_neg h3] at h
              by_cases h4 : now < endMoment r
              · rw [if_pos h4] at h; simp at h
              · rw [if_neg h4] at h
                by_cases h5 : existingPaymentFor st.paymentLogs req.userId req.reservationId = true
                · rw [if_pos h5] at h; simp at h
                · rw [if_neg h5] at h
                  cases hup : (settleCalc st r).playerPayments.find?
                      (fun p => p.playerId = req.userId) with
                  | none => rw [hup] at h; simp at h
                  | some up =>
                    rw [hup] at h
                    dsimp only at h
                    by_cases h6 : |req.amount - totalCourtFee st r| > 1 / 100
                    · rw [if_pos h6] at h; simp at h
                    · rw [if_neg h6] at h
                      simp only [Prod.mk.injEq] at h
                      obtain ⟨-, hst'⟩ := h
                      rw [← hst']
                      unfold createPaymentLog
                      dsimp only
                      rw [hfu]
                      dsimp only
                      rw [if_neg h1, if_neg h2, hfr]
                      dsimp only
                      rw [if_neg h3, if_neg h4,
                        if_pos (show existingPaymentFor
                            (newPaymentLog req st r up :: st.paymentLogs)
                            req.userId req.reservationId = true by
                          simp [existingPaymentFor, newPaymentLog])]

/-- Witness for C8: `settler` settles the finished two-hour solo reservation;
the recomputed grand total is the floored 100 per hour times two. -/
theorem C8_settle_amount_check_witness :
    ((createPaymentLog 1000 settleReq stSettle).1 = Except.error SettleErr.amountMismatch ↔
      |settleReq.amount - (settleCalc stSettle rSettle).summary.grandTotal| > 1 / 100) ∧
    (|settleReq.amount - (settleCalc stSettle rSettle).summary.grandTotal| ≤ 1 / 100 →
      createPaymentLog 1000 settleReq stSettle =
        (Except.ok (),
         { stSettle with paymentLogs :=
             ({ userId := settleReq.userId
                reservationId := some settleReq.reservationId
                amount := (settleCalc stSettle rSettle).summary.grandTotal
                hStatus := HStatus.homeowner
                ratePerHour := (100 : ℚ)
                status := PLStatus.pending } : PLogDoc) :: stSettle.paymentLogs })) :=
  C8_settle_amount_check 1000 settleReq stSettle settler rSettle
    ⟨1, HStatus.homeowner, 100, 200⟩ rfl (by decide) (by decide) rfl (by decide)
    (by decide) (by decide)
    (by
      show List.find? _ ((settleCalc stSettle rSettle).playerPayments) = _
      simp +decide [settleCalc, resolveRoster, calculatePlayerPayments, rateOf,
        homeownerRate, nonHomeownerRate, additionalPerPlayer, actualTotal,
        calculatedTotal, homeownerCount, nonHomeownerCount, HOMEOWNER_RATE,
        NON_HOMEOWNER_RATE, MINIMUM_TOTAL, jsOrOne, stSettle, rSettle, settler,
        List.filter, List.find?, max_def]
      norm_num)

/-- Witness for C9 on part (a): with the payment for `rSettle` already logged,
the same settlement request fails already-settled and changes nothing. -/
theorem C9_one_payment_per_account_booking_witness :
    createPaymentLog 1000 settleReq dupSt = (Except.error SettleErr.alreadySettled, dupSt) :=
  (C9_one_payment_per_account_booking 1000 settleReq dupSt).1 settler rSettle rfl
    (by decide) (by decide) rfl (by decide) (by decide) (by decide)

end PickleballRT
